import Mathlib

/-!
Shallow embedding of the `gte` (github-truth-engine) package and proofs about it.

Strings are modelled as `List Char`.  The Python `re` module's character
classes `\s`, `\d`, `\w` are modelled over the ASCII range; every regular
expression occurring in `src/gte/analyzer.py` is a concatenation of literal
characters, an optional literal (`y?`) and one-or-more character-class
repetitions (`\s+`, `\d+`, `\w+`), so a small backtracking matcher covers
them exactly.  External collaborators (the GitHub read API, `json.loads`,
UTF-8 decoding, the ollama / openai client libraries) are passed in as
function parameters, mirroring the repository's own external-call boundary.
-/

/-- Coerces a Lean string literal to the `List Char` representation used
throughout this development. -/
def str (s : String) : List Char := s.toList

/-- Decimal rendering of a natural number, as Python `str(n)` produces. -/
def natToStr (n : Nat) : List Char := (toString n).toList

/-- Decimal rendering of an integer, as Python `str(i)` produces. -/
def intToStr (i : Int) : List Char := (toString i).toList

/-- Python substring containment `needle in hay`. -/
def containsSub (needle : List Char) : List Char → Bool
  | [] => needle.isEmpty
  | x :: xs => needle.isPrefixOf (x :: xs) || containsSub needle xs

/-- Characters stripped by Python `str.strip()` with no argument
(ASCII whitespace). -/
def pyIsSpace (c : Char) : Bool :=
  c = ' ' || c = '\t' || c = '\n' || c = '\x0d' || c = '\x0b' || c = '\x0c'

/-- Python `str.strip()`: remove leading and trailing whitespace. -/
def pyStrip (l : List Char) : List Char :=
  ((l.dropWhile pyIsSpace).reverse.dropWhile pyIsSpace).reverse

/-- Python `str.rstrip('/')`: remove trailing slashes. -/
def rstripSlash (l : List Char) : List Char :=
  (l.reverse.dropWhile (· = '/')).reverse

/-- Python `str.lower()` restricted to the ASCII range. -/
def pyLower (l : List Char) : List Char := l.map Char.toLower

/-- Character classes appearing in the repository's regular expressions
(`\s`, `\d`, `\w`), modelled over the ASCII range of Python `re`. -/
inductive CC where
  | space : CC
  | digit : CC
  | word : CC
deriving DecidableEq

/-- Membership test of a character class. -/
def CC.matches : CC → Char → Bool
  | .space, c => c = ' ' || c = '\t' || c = '\n' || c = '\x0d' || c = '\x0b' || c = '\x0c'
  | .digit, c => c.isDigit
  | .word, c => c.isAlphanum || c = '_'

/-- One item of a regular expression: a literal character, an optional
literal (`c?`), or a greedy one-or-more repetition of a class (`\s+` etc.).
Every pattern in `src/gte/analyzer.py`'s claim taxonomy is a concatenation
of these. -/
inductive RItem where
  | lit (c : Char) : RItem
  | opt (c : Char) : RItem
  | plus (cc : CC) : RItem

/-- Backtracking helper for `matchFrom`: try to let a `+` repetition
consume `k, k-1, …, 1` characters (greedy: longest first), continuing with
`f`, the matcher for the remaining items. -/
def tryLens (f : List Char → Option Nat) (xs : List Char) : Nat → Option Nat
  | 0 => none
  | k + 1 =>
    match f (xs.drop (k + 1)) with
    | some n => some (k + 1 + n)
    | none => tryLens f xs k

/-- Attempt to match a pattern at the start of the input; returns the
length of the (greedy, backtracking — Python `re` semantics) match. -/
def matchFrom : List RItem → List Char → Option Nat
  | [], _ => some 0
  | .lit _ :: _, [] => none
  | .lit c :: rest, x :: xs =>
    if x = c then (matchFrom rest xs).map (· + 1) else none
  | .opt _ :: rest, [] => matchFrom rest []
  | .opt c :: rest, x :: xs =>
    if x = c then
      match matchFrom rest xs with
      | some n => some (n + 1)
      | none => matchFrom rest (x :: xs)
    else matchFrom rest (x :: xs)
  | .plus cc :: rest, xs =>
    tryLens (matchFrom rest) xs (xs.takeWhile cc.matches).length

/-- Scan of `re.findall`, structurally recursive on a fuel argument so
that it reduces inside the kernel; every recursive call strictly shortens
the input, so fuel equal to the input length never runs out. -/
def findallAux (pat : List RItem) : Nat → List Char → List (List Char)
  | _, [] =>
    match matchFrom pat [] with
    | some _ => [[]]
    | none => []
  | 0, _ :: _ => []
  | fuel + 1, x :: xs =>
    match matchFrom pat (x :: xs) with
    | some 0 => [] :: findallAux pat fuel xs
    | some (n + 1) => (x :: xs).take (n + 1) :: findallAux pat fuel (xs.drop n)
    | none => findallAux pat fuel xs

/-- Python `re.findall`: scan left to right, return every non-overlapping
match (leftmost, greedy); a zero-width match advances the scan by one. -/
def findall (pat : List RItem) (s : List Char) : List (List Char) :=
  findallAux pat s.length s

/-- Builds the regex items for a literal string. -/
def lits (s : String) : List RItem := s.toList.map RItem.lit

/-- Builds `a\s+b`, the most common pattern shape in the taxonomy. -/
def w2 (a b : String) : List RItem := lits a ++ [.plus .space] ++ lits b

/-- Builds `a\s+b\s+c`. -/
def w3 (a b c : String) : List RItem := lits a ++ [.plus .space] ++ lits b ++ [.plus .space] ++ lits c

/-- The fixed claim taxonomy of `RepoAnalyzer._extract_claims`
(`src/gte/analyzer.py`): categories in declaration order, each with its
ordered pattern list. -/
def claim_patterns : List (List Char × List (List RItem)) :=
  [ (str "performance",
      [ lits "blazingl" ++ [.opt 'y', .plus .space] ++ lits "fast",
        [.plus .digit] ++ lits "x" ++ [.plus .space] ++ lits "faster",
        w2 "lightning" "fast",
        w2 "extremely" "fast",
        w2 "super" "fast",
        lits "optimized",
        w2 "high" "performance",
        lits "performant",
        lits "blazing" ]),
    (str "simplicity",
      [ lits "simple",
        lits "easy",
        lits "straightforward",
        lits "just" ++ [.plus .space, .plus .word],
        w2 "zero" "config",
        w2 "no" "setup",
        w2 "quick" "start",
        w2 "minimal" "setup",
        w3 "plug" "and" "play" ]),
    (str "production",
      [ w2 "production" "ready",
        w2 "battle" "tested",
        w2 "enterprise" "grade",
        lits "stable",
        lits "reliable",
        lits "proven",
        lits "mature",
        w2 "industry" "standard" ]),
    (str "lightweight",
      [ lits "lightweight",
        lits "minimal",
        lits "tiny",
        w2 "small" "footprint",
        w2 "zero" "dependencies",
        w2 "no" "dependencies",
        w2 "minimal" "dependencies" ]),
    (str "modern",
      [ lits "modern",
        w2 "cutting" "edge",
        w2 "next" "generation",
        w2 "future" "proof",
        w3 "state" "of" "the" ++ [.plus .space] ++ lits "art" ]),
    (str "comprehensive",
      [ lits "complete",
        w2 "full" "featured",
        lits "comprehensive",
        w3 "all" "in" "one",
        w3 "everything" "you" "need" ]) ]

/-- One extracted claim: the category/text/count dict appended by
`_extract_claims`. -/
structure ClaimRecord where
  category : List Char
  text : List Char
  count : Nat
deriving DecidableEq, Repr, Inhabited

/-- Inner loop of `_extract_claims`: fold over one category's pattern list,
appending a record for each pattern with a non-empty match list. -/
def extract_inner (readme_lower : List Char) (category : List Char)
    (plist : List (List RItem)) (claims : List ClaimRecord) : List ClaimRecord :=
  plist.foldl (fun claims pat =>
    let ms := findall pat readme_lower
    if ms.isEmpty then claims
    else claims ++ [⟨category, ms.headD [], ms.length⟩]) claims

/-- `RepoAnalyzer._extract_claims` (`src/gte/analyzer.py:109`): lowercase
the document, then loop over categories in declaration order and patterns
in list order. -/
def extract_claims (readme : List Char) : List ClaimRecord :=
  let readme_lower := pyLower readme
  claim_patterns.foldl (fun claims cp => extract_inner readme_lower cp.1 cp.2 claims) []

/-- Declarative restatement of the Claim Extractor contract, following the
spec's words (§4.1): for each pattern with at least one match, exactly one
record whose text is the first match and whose count is the total number of
matches, emitted in category-then-pattern order. -/
def extract_claims_spec (readme : List Char) : List ClaimRecord :=
  claim_patterns.flatMap fun cp =>
    cp.2.filterMap fun pat =>
      match findall pat (pyLower readme) with
      | [] => none
      | m :: ms => some ⟨cp.1, m, ms.length + 1⟩

/-- Error raised by `RepoAnalyzer._parse_repo_url` when no accepted form
matches (the `ValueError` carrying the invalid-format message). -/
inductive ParseErr where
  | invalidFormat (url : List Char) : ParseErr
deriving DecidableEq, Repr

/-- Attempt of the regex `github\.com/([^/]+)/([^/]+)` at the start of the
input: the literal `github.com/`, then two non-empty slash-free groups
separated by a slash. -/
def ghTryAt (s : List Char) : Option (List Char × List Char) :=
  if (str "github.com/").isPrefixOf s then
    let rest := s.drop (str "github.com/").length
    let g1 := rest.takeWhile (· ≠ '/')
    if g1.isEmpty then none
    else
      match rest.drop g1.length with
      | '/' :: rest2 =>
        let g2 := rest2.takeWhile (· ≠ '/')
        if g2.isEmpty then none else some (g1, g2)
      | _ => none
  else none

/-- Python `re.search` for the pattern above: leftmost position at which
the pattern matches. -/
def ghSearch : List Char → Option (List Char × List Char)
  | [] => none
  | x :: xs =>
    match ghTryAt (x :: xs) with
    | some r => some r
    | none => ghSearch xs

/-- `RepoAnalyzer._parse_repo_url` (`src/gte/analyzer.py:31`): strip
whitespace and trailing slashes; if the text contains `github.com`,
search for the URL pattern; otherwise accept exactly a two-part
`owner/repo` split; anything else raises the format error. -/
def parse_repo_url (url0 : List Char) : Except ParseErr (List Char × List Char) :=
  let url := rstripSlash (pyStrip url0)
  if containsSub (str "github.com") url then
    match ghSearch url with
    | some (o, r) => .ok (o, r)
    | none => .error (.invalidFormat url)
  else
    match List.splitOn '/' url with
    | [a, b] => .ok (a, b)
    | _ => .error (.invalidFormat url)

/-- Result of `json.loads` on a `package.json`, restricted to the two keys
`_get_dependencies` reads: the key lists of the `dependencies` and
`devDependencies` objects (a missing key reads as the empty object). -/
structure PkgJson where
  dependencies : List (List Char)
  devDependencies : List (List Char)
deriving DecidableEq, Repr

/-- Python dict merge of `data.get` on `dependencies` then
`devDependencies` (missing keys read as empty dicts): the first dict's
keys in order, then the second dict's keys not already present. -/
def mergedKeys (p : PkgJson) : List (List Char) :=
  p.dependencies ++ p.devDependencies.filter (fun k => !(p.dependencies.contains k))

/-- Python `l.startswith('#')` on a raw line. -/
def startsWithHash : List Char → Bool
  | '#' :: _ => true
  | _ => false

/-- Requirements parsing in `_get_dependencies`:
`[l.strip() for l in lines if l.strip() and not l.startswith('#')]` over
`split('\n')` — note the comment test runs on the *unstripped* line. -/
def req_list (text : List Char) : List (List Char) :=
  (List.splitOn '\n' text).filterMap fun l =>
    let s := pyStrip l
    if !s.isEmpty && !startsWithHash l then some s else none

/-- The `deps` dict of `_get_dependencies`. -/
structure DepInfo where
  count : Nat
  type : Option (List Char)
  list : List (List Char)
deriving DecidableEq, Repr

/-- The probe order of `_get_dependencies`' `dep_files` dict
(Python dicts preserve insertion order). -/
def dep_files : List (List Char × List Char) :=
  [ (str "package.json", str "npm"),
    (str "requirements.txt", str "pip"),
    (str "Cargo.toml", str "cargo"),
    (str "go.mod", str "go"),
    (str "pom.xml", str "maven"),
    (str "build.gradle", str "gradle"),
    (str "Gemfile", str "bundler") ]

/-- Loop body of `_get_dependencies` (`src/gte/analyzer.py:177`).  The
`try`/`except: continue` wraps the whole body, so a failure *after*
`deps['type'] = dep_type` (a `json.loads` or UTF-8 decode error) leaves the
type assigned and moves on to the next manifest; only a fully processed
manifest breaks the loop.  `get_contents` returns `none` when the platform
call raises (file absent); `json_loads`/`decode_utf8` return `none` when
the corresponding stdlib call raises. -/
def dep_step (json_loads : List Char → Option PkgJson)
    (decode_utf8 : List Char → Option (List Char))
    (get_contents : List Char → Option (List Char)) :
    List (List Char × List Char) → DepInfo → DepInfo
  | [], deps => deps
  | (filename, dep_type) :: rest, deps =>
    match get_contents filename with
    | none => dep_step json_loads decode_utf8 get_contents rest deps
    | some content =>
      let deps1 : DepInfo := { deps with type := some dep_type }
      if filename = str "package.json" then
        match json_loads content with
        | none => dep_step json_loads decode_utf8 get_contents rest deps1
        | some data =>
          { deps1 with count := (mergedKeys data).length, list := mergedKeys data }
      else if filename = str "requirements.txt" then
        match decode_utf8 content with
        | none => dep_step json_loads decode_utf8 get_contents rest deps1
        | some text =>
          { deps1 with count := (req_list text).length, list := req_list text }
      else deps1

/-- `RepoAnalyzer._get_dependencies` (`src/gte/analyzer.py:158`). -/
def get_dependencies (json_loads : List Char → Option PkgJson)
    (decode_utf8 : List Char → Option (List Char))
    (get_contents : List Char → Option (List Char)) : DepInfo :=
  dep_step json_loads decode_utf8 get_contents dep_files ⟨0, none, []⟩

/-- Round-half-to-even of a rational, as Python `round` behaves on exact
values (binary floating-point representation error is abstracted away). -/
def pyRoundEven (x : ℚ) : ℤ :=
  let f := ⌊x⌋
  let r := x - f
  if r < 1/2 then f
  else if 1/2 < r then f + 1
  else if f % 2 = 0 then f else f + 1

/-- Python `round(x, 1)`. -/
def pyRound1 (x : ℚ) : ℚ := (pyRoundEven (x * 10) : ℚ) / 10

/-- The dict returned by `_get_issue_stats`; the fields `open_count` and
`closed_count` model the `'open'` and `'closed'` keys. -/
structure IssueStats where
  open_count : Nat
  closed_count : Nat
  total : Nat
  close_rate : ℚ
deriving DecidableEq, Repr

/-- Happy path of `RepoAnalyzer._get_issue_stats`
(`src/gte/analyzer.py:310`), given the open and closed counts the platform
returned. -/
def get_issue_stats (opened closed : Nat) : IssueStats :=
  let total := opened + closed
  { open_count := opened,
    closed_count := closed,
    total := total,
    close_rate := if 0 < total then pyRound1 ((closed : ℚ) / (total : ℚ) * 100) else 0 }

/-- Failure path of `_get_issue_stats` (the `except` branch): all-zero stats. -/
def issue_stats_default : IssueStats :=
  { open_count := 0, closed_count := 0, total := 0, close_rate := 0 }

/-- Age bucket of `build_analysis_prompt` (`src/gte/prompts.py:115`), as a
function of `age_days = (updated_at - created_at).days`.  Python `//` is
floor division, `Int.fdiv` here. -/
def age_string (age_days : Int) : List Char :=
  if age_days < 30 then intToStr age_days ++ str " days old (fresh!)"
  else if age_days < 365 then intToStr (Int.fdiv age_days 30) ++ str " months old"
  else intToStr (Int.fdiv age_days 365) ++ str " years old"

/-- Recency bucket of `build_analysis_prompt` (`src/gte/prompts.py:125`),
as a function of `days_since_commit`. -/
def last_commit_string (days_since_commit : Int) : List Char :=
  if days_since_commit = 0 then str "today"
  else if days_since_commit = 1 then str "yesterday"
  else if days_since_commit < 30 then intToStr days_since_commit ++ str " days ago"
  else if days_since_commit < 365 then intToStr (Int.fdiv days_since_commit 30) ++ str " months ago"
  else intToStr (Int.fdiv days_since_commit 365) ++ str " years ago"

/-- The argument `test_coverage=data['test_coverage'] or "Unknown"` of the
template substitution (`src/gte/prompts.py:159`): Python `or` yields the
right operand when the left is falsy, and both `None` and `0` are falsy;
a truthy integer is rendered by `str`. -/
def test_coverage_field (tc : Option Nat) : List Char :=
  match tc with
  | none => str "Unknown"
  | some n => if 0 < n then natToStr n else str "Unknown"

/-- The `- Test Coverage: {test_coverage}` line of `ANALYSIS_TEMPLATE`
(`src/gte/prompts.py:77`) after substitution. -/
def coverage_line (tc : Option Nat) : List Char :=
  str "- Test Coverage: " ++ test_coverage_field tc ++ str "\n"

/-- Backend selected by `AIRoaster.__init__`. -/
inductive Backend where
  | ollama : Backend
  | openai : Backend
deriving DecidableEq, Repr

/-- Errors `AIRoaster.__init__` can raise: `_init_openai`'s
`ValueError` when no API key is given, and the `ImportError`s of the two
client libraries. -/
inductive InitErr where
  | openaiKeyMissing : InitErr
  | openaiImportError : InitErr
  | ollamaImportError : InitErr
deriving DecidableEq, Repr

/-- `AIRoaster.__init__` (`src/gte/roaster.py:12`): in quick mode no
backend is initialized (`backend` stays `None`); otherwise a model name
starting with `gpt` selects OpenAI (requiring an API key) and anything
else selects ollama (requiring the `ollama` package to be importable —
the inner availability check swallows its own errors, so importability is
the only hard requirement).  `ollama_installed` / `openai_installed`
model whether the respective `import` succeeds. -/
def airoaster_init (model : List Char) (api_key : Option (List Char))
    (quick_mode : Bool) (ollama_installed openai_installed : Bool) :
    Except InitErr (Option Backend) :=
  if quick_mode then .ok none
  else if (str "gpt").isPrefixOf model then
    match api_key with
    | none => .error .openaiKeyMissing
    | some _ => if openai_installed then .ok (some .openai) else .error .openaiImportError
  else if ollama_installed then .ok (some .ollama)
  else .error .ollamaImportError

/-- The `--quick` branch of the `roast` command (`src/gte/cli.py:79`):
it constructs `AIRoaster(model=model, api_key=api_key)` without passing
`quick_mode=True`, so `__init__` runs with its default `quick_mode=False`. -/
def cli_quick_roaster_init (model : List Char) (api_key : Option (List Char))
    (ollama_installed openai_installed : Bool) : Except InitErr (Option Backend) :=
  airoaster_init model api_key false ollama_installed openai_installed

/-- The `commit_frequency` dict of `_get_commit_frequency`. -/
structure CommitFreq where
  last_90_days : Nat
  avg_per_week : ℚ
  is_active : Bool
deriving DecidableEq, Repr

/-- The analysis dict assembled by `RepoAnalyzer.analyze`
(`src/gte/analyzer.py:68`), restricted to fields with machine content;
timestamps are modelled as integer day numbers. -/
structure RepoData where
  name : List Char
  full_name : List Char
  description : Option (List Char)
  stars : Nat
  forks : Nat
  watchers : Nat
  open_issues : Nat
  language : Option (List Char)
  created_at : Int
  updated_at : Int
  pushed_at : Int
  size : Nat
  readme : Option (List Char)
  readme_claims : List ClaimRecord
  dependencies : DepInfo
  has_tests : Bool
  has_benchmarks : Bool
  has_ci : Bool
  has_docs : Bool
  test_coverage : Option Nat
  commit_frequency : CommitFreq
  issue_stats : IssueStats
  license : Option (List Char)

/-- One entry of the `roasts` list built by `AIRoaster.quick_roast`. -/
structure RoastEntry where
  claim : List Char
  evidence : List Char
  roast : List Char
deriving DecidableEq, Repr

/-- Default used with `headD` for the Python indexings `xs[0]` that occur
only under a non-emptiness guard. -/
def defaultClaim : ClaimRecord := ⟨[], [], 0⟩

/-- Filter for performance-category claims (`quick_roast`, line 157). -/
def perf_claims (d : RepoData) : List ClaimRecord :=
  d.readme_claims.filter (fun c => c.category == str "performance")

/-- Filter for lightweight-category claims (`quick_roast`, line 167). -/
def dep_claims (d : RepoData) : List ClaimRecord :=
  d.readme_claims.filter (fun c => c.category == str "lightweight")

/-- Filter for production-category claims (`quick_roast`, line 177). -/
def prod_claims (d : RepoData) : List ClaimRecord :=
  d.readme_claims.filter (fun c => c.category == str "production")

/-- Condition of rule 1: `if perf_claims and not repo_data['has_benchmarks']`. -/
def rule1_fires (d : RepoData) : Bool :=
  !(perf_claims d).isEmpty && !d.has_benchmarks

/-- Condition of rule 2: `if dep_claims and repo_data['dependencies']['count'] > 50`. -/
def rule2_fires (d : RepoData) : Bool :=
  !(dep_claims d).isEmpty && decide (50 < d.dependencies.count)

/-- Condition of rule 3: `if prod_claims and not repo_data['has_tests']`. -/
def rule3_fires (d : RepoData) : Bool :=
  !(prod_claims d).isEmpty && !d.has_tests

/-- Entry appended by rule 1 of `quick_roast`. -/
def perf_entry (d : RepoData) : RoastEntry :=
  { claim := ((perf_claims d).headD defaultClaim).text,
    evidence := str "No benchmarks found",
    roast := str "\x22Trust me bro\x22 - The Benchmark" }

/-- Entry appended by rule 2 of `quick_roast`. -/
def dep_entry (d : RepoData) : RoastEntry :=
  { claim := ((dep_claims d).headD defaultClaim).text,
    evidence := natToStr d.dependencies.count ++ str " dependencies",
    roast := str "\x27" ++ ((dep_claims d).headD defaultClaim).text
      ++ str "\x27 is a state of mind, not a dependency count" }

/-- Entry appended by rule 3 of `quick_roast`. -/
def prod_entry (d : RepoData) : RoastEntry :=
  { claim := ((prod_claims d).headD defaultClaim).text,
    evidence := str "No tests detected",
    roast := str "Production ready for chaos engineering" }

/-- Thousands-separated rendering, Python format spec `:,`. -/
def groupRev : List Char → List Char
  | a :: b :: c :: d :: rest => a :: b :: c :: ',' :: groupRev (d :: rest)
  | l => l

/-- Python f-string thousands-separator formatting (format spec comma)
for a natural number. -/
def formatCommas (n : Nat) : List Char :=
  (groupRev (natToStr n).reverse).reverse

/-- Bytes of the chart emoji as they appear (mojibake) in
`src/gte/roaster.py:187`. -/
def CHART_MARK : List Char := str "\u011F\u0178\u201C\u0160"

/-- Bytes of the star emoji as they appear in `src/gte/roaster.py:188`. -/
def STAR_MARK : List Char := str "\u00E2\u00AD"

/-- Bytes of the cross emoji as they appear in `src/gte/roaster.py:192`. -/
def CROSS_MARK : List Char := str "\u00E2\u0152"

/-- Bytes of the check emoji as they appear in `src/gte/roaster.py:196`. -/
def CHECK_MARK : List Char := str "\u00E2\u0153\u2026"

/-- The separator line of `quick_roast` (`src/gte/roaster.py:211`),
including its trailing newline. -/
def SEP_LINE : List Char := str "\u00E2\u201D\u00E2\u201D\u00E2\u201D\u00E2\u201D\u00E2\u201D\u00E2\u201D\u00E2\u201D\u00E2\u201D\u00E2\u201D\u00E2\u201D\u00E2\u201D\u00E2\u201D\u00E2\u201D\u00E2\u201D\u00E2\u201D\u00E2\u201D\u00E2\u201D\u00E2\u201D\u00E2\u201D\u00E2\u201D\u00E2\u201D\u00E2\u201D\u00E2\u201D\u00E2\u201D\u00E2\u201D\u00E2\u201D\u00E2\u201D\u00E2\u201D\u00E2\u201D\u00E2\u201D\u00E2\u201D\u00E2\u201D\u00E2\u201D\n"

/-- Score formula of `quick_roast`: start at 100, subtract 20 / 15 / 25
for the rules that fire (each at most once). -/
def quick_score_pre (d : RepoData) : Int :=
  100 - (if rule1_fires d then 20 else 0)
      - (if rule2_fires d then 15 else 0)
      - (if rule3_fires d then 25 else 0)

/-- The `roasts` list of `quick_roast`: entries appended in rule order. -/
def quick_roasts (d : RepoData) : List RoastEntry :=
  (if rule1_fires d then [perf_entry d] else [])
    ++ (if rule2_fires d then [dep_entry d] else [])
    ++ (if rule3_fires d then [prod_entry d] else [])

/-- Final score of `quick_roast`: forced to 95 when no roast entry was
produced (`src/gte/roaster.py:197`), else the rule-deducted score. -/
def quick_score (d : RepoData) : Int :=
  if (quick_roasts d).isEmpty then 95 else quick_score_pre d

/-- Verdict thresholds of `quick_roast` (`src/gte/roaster.py:200`). -/
def verdict_for (score : Int) : List Char :=
  if 90 ≤ score then str "Honest AF"
  else if 70 ≤ score then str "Mostly True"
  else if 50 ≤ score then str "Marketing Spin"
  else if 30 ≤ score then str "Creative Liberties"
  else str "README Fiction"

/-- Verdict of `quick_roast`. -/
def quick_verdict (d : RepoData) : List Char := verdict_for (quick_score d)

/-- Rendering of one roast entry (`src/gte/roaster.py:192`). -/
def render_entry (r : RoastEntry) : List Char :=
  CROSS_MARK ++ str " CLAIM: \x22" ++ r.claim ++ str "\x22\n   EVIDENCE: "
    ++ r.evidence ++ str "\n   ROAST: " ++ r.roast ++ str "\n\n"

/-- The all-clear line emitted when no rule fired (`src/gte/roaster.py:196`). -/
def ALL_CLEAR : List Char :=
  CHECK_MARK ++ str " No obvious lies detected. Surprisingly honest!\n\n"

/-- Middle section of the output: rendered entries, or the all-clear line. -/
def quick_body (d : RepoData) : List Char :=
  if (quick_roasts d).isEmpty then ALL_CLEAR
  else ((quick_roasts d).map render_entry).flatten

/-- Header of the output (`src/gte/roaster.py:187`). -/
def quick_header (full_name : List Char) (stars : Nat) : List Char :=
  str "\n" ++ CHART_MARK ++ str " Repository: " ++ full_name ++ str "\n"
    ++ STAR_MARK ++ str " Stars: " ++ formatCommas stars ++ str "\n\n"

/-- Trailing block of the output: separator, score, verdict, separator
(`src/gte/roaster.py:211`). -/
def score_block (score : Int) (verdict : List Char) : List Char :=
  SEP_LINE ++ (str "TRUTH SCORE: " ++ intToStr score ++ str "/100\n")
    ++ (str "VERDICT: " ++ verdict ++ str "\n") ++ SEP_LINE

/-- Result of `quick_roast`, keeping the intermediate `roasts`, `score`
and `verdict` alongside the returned output string. -/
structure QuickRoastResult where
  roasts : List RoastEntry
  score : Int
  verdict : List Char
  output : List Char

/-- `AIRoaster.quick_roast` (`src/gte/roaster.py:148`). -/
def quick_roast (d : RepoData) : QuickRoastResult :=
  { roasts := quick_roasts d,
    score := quick_score d,
    verdict := quick_verdict d,
    output := quick_header d.full_name d.stars
      ++ (quick_body d ++ score_block (quick_score d) (quick_verdict d)) }

lemma isPrefixOf_append_ext {x a : List Char} (b : List Char)
    (h : x.isPrefixOf a = true) : x.isPrefixOf (a ++ b) = true := by
  induction x generalizing a with
  | nil => simp [List.isPrefixOf]
  | cons c cs ih =>
    cases a with
    | nil => simp [List.isPrefixOf] at h
    | cons d ds =>
      simp only [List.isPrefixOf, List.cons_append, Bool.and_eq_true, beq_iff_eq] at h ⊢
      exact ⟨h.1, ih h.2⟩

lemma isPrefixOf_self_append (x b : List Char) : x.isPrefixOf (x ++ b) = true := by
  induction x with
  | nil => simp [List.isPrefixOf]
  | cons c cs ih => simp only [List.cons_append, List.isPrefixOf, beq_self_eq_true,
      Bool.true_and]; exact ih

lemma containsSub_ext_right {x a : List Char} (b : List Char)
    (h : containsSub x a = true) : containsSub x (a ++ b) = true := by
  induction a with
  | nil =>
    simp only [containsSub, List.isEmpty_iff] at h
    subst h
    cases b with
    | nil => simp [containsSub]
    | cons y ys => simp [containsSub, List.isPrefixOf]
  | cons y ys ih =>
    simp only [containsSub, Bool.or_eq_true] at h ⊢
    rcases h with h | h
    · exact Or.inl (isPrefixOf_append_ext b h)
    · exact Or.inr (ih h)

lemma containsSub_ext_left {x b : List Char} (a : List Char)
    (h : containsSub x b = true) : containsSub x (a ++ b) = true := by
  induction a with
  | nil => simpa using h
  | cons y ys ih =>
    simp only [List.cons_append, containsSub, Bool.or_eq_true]
    exact Or.inr ih

lemma containsSub_self_append (x b : List Char) : containsSub x (x ++ b) = true := by
  cases hx : x ++ b with
  | nil =>
    have : x = [] := by cases x <;> simp_all
    simp [containsSub, hx, this]
  | cons y ys =>
    rw [← hx]
    cases x with
    | nil => cases b <;> simp_all [containsSub, List.isPrefixOf]
    | cons c cs =>
      simp only [List.cons_append, containsSub, Bool.or_eq_true]
      exact Or.inl (isPrefixOf_self_append _ _)

lemma extract_inner_eq (rl cat : List Char) (plist : List (List RItem))
    (acc : List ClaimRecord) :
    extract_inner rl cat plist acc = acc ++ plist.filterMap (fun pat =>
      match findall pat rl with
      | [] => none
      | m :: ms => some ⟨cat, m, ms.length + 1⟩) := by
  induction plist generalizing acc with
  | nil => simp [extract_inner]
  | cons p ps ih =>
    simp only [extract_inner, List.foldl_cons, List.filterMap_cons] at ih ⊢
    cases hm : findall p rl with
    | nil => simpa [hm] using ih acc
    | cons m ms =>
      simp only [hm, List.isEmpty_cons, List.headD_cons, List.length_cons]
      rw [if_neg (by simp)]
      rw [ih]
      simp

lemma extract_outer_eq (rl : List Char)
    (l : List (List Char × List (List RItem))) (acc : List ClaimRecord) :
    l.foldl (fun claims cp => extract_inner rl cp.1 cp.2 claims) acc
      = acc ++ l.flatMap (fun cp => cp.2.filterMap (fun pat =>
          match findall pat rl with
          | [] => none
          | m :: ms => some ⟨cp.1, m, ms.length + 1⟩)) := by
  induction l generalizing acc with
  | nil => simp
  | cons cp l ih =>
    simp only [List.foldl_cons, List.flatMap_cons]
    rw [extract_inner_eq, ih]
    simp

/-- C2 — the Claim Extractor evaluates every pattern of every category
independently against the lowercased document; each pattern with at least
one match contributes exactly one record carrying the first match as text
and the total match count, in category-declaration order then pattern
order (so one category can contribute several records). -/
theorem C2_extract_claims_characterization (readme : List Char) :
    extract_claims readme = extract_claims_spec readme := by
  unfold extract_claims extract_claims_spec
  rw [extract_outer_eq]
  simp

/-- C9 — issue statistics: the total is open + closed; when the total is 0
the close rate is exactly 0 (the guarded branch never divides), otherwise
it is closed/total as a percentage rounded to one decimal; the failure-path
default record also carries total 0 and close rate 0. -/
theorem C9_close_rate_guard (opened closed : Nat) :
    (get_issue_stats opened closed).total = opened + closed
    ∧ (opened + closed = 0 → (get_issue_stats opened closed).close_rate = 0)
    ∧ (0 < opened + closed → (get_issue_stats opened closed).close_rate
        = pyRound1 ((closed : ℚ) / (((opened + closed : Nat)) : ℚ) * 100))
    ∧ issue_stats_default.close_rate = 0 ∧ issue_stats_default.total = 0 := by
  have hrate : (get_issue_stats opened closed).close_rate
      = if 0 < opened + closed
        then pyRound1 ((closed : ℚ) / (((opened + closed : Nat)) : ℚ) * 100) else 0 := rfl
  refine ⟨rfl, fun h => ?_, fun h => ?_, rfl, rfl⟩
  · rw [hrate, if_neg (by omega)]
  · rw [hrate, if_pos h]

/-- Witness for C9 at concrete inputs: 0 open + 0 closed issues give close
rate 0; 1 open + 3 closed give the rounded percentage of 3/4. -/
theorem C9_close_rate_guard_witness :
    (get_issue_stats 0 0).close_rate = 0
    ∧ (get_issue_stats 1 3).close_rate
        = pyRound1 ((3 : ℚ) / (((1 + 3 : Nat)) : ℚ) * 100) := by
  exact ⟨(C9_close_rate_guard 0 0).2.1 rfl, (C9_close_rate_guard 1 3).2.2.1 (by norm_num)⟩

/-- C5 counterexample — the parser does not accept exactly the three forms:
the owner/repo reference `a/github.com` (owner `a`, repository named
`github.com`) is rejected with a format error because any input containing
`github.com` is handed to the URL pattern only, while the free-text input
`visit github.com/facebook/react today`, which is none of the three forms,
is accepted (with the trailing words absorbed into the repository name). -/
theorem C5_parse_forms_counterexample :
    parse_repo_url (str "a/github.com")
      = .error (.invalidFormat (str "a/github.com"))
    ∧ parse_repo_url (str "visit github.com/facebook/react today")
      = .ok (str "facebook", str "react today") := by
  constructor <;> rfl

/-- C5 amended — the three documented forms do parse as specified (and the
malformed reference fails), but inputs containing `github.com` are handled
only by the URL pattern, so acceptance neither covers all owner/repo
references nor is limited to the three forms. -/
theorem C5_parse_vectors :
    parse_repo_url (str "https://github.com/facebook/react")
      = .ok (str "facebook", str "react")
    ∧ parse_repo_url (str "github.com/facebook/react")
      = .ok (str "facebook", str "react")
    ∧ parse_repo_url (str "facebook/react") = .ok (str "facebook", str "react")
    ∧ parse_repo_url (str "not-a-valid-ref")
      = .error (.invalidFormat (str "not-a-valid-ref")) := by
  refine ⟨rfl, rfl, rfl, rfl⟩

/-- C6 counterexample — a creation-to-update gap of 10 days renders as
`10 days old (fresh!)`, not the claimed `10 days old`: the under-30-days
branch appends a ` (fresh!)` suffix. -/
theorem C6_age_bucket_counterexample :
    age_string 10 = str "10 days old (fresh!)"
    ∧ age_string 10 ≠ str "10 days old" := by
  constructor
  · rfl
  · decide

/-- C6 amended — the age bucket maps a gap of N days to
`N days old (fresh!)` when N < 30 (the claimed `N days old` plus the
fixed suffix), to `(N div 30) months old` when N < 365 and to
`(N div 365) years old` otherwise, with floor division; in particular a
gap of 400 days yields `1 years old`. -/
theorem C6_age_bucket_amended :
    (∀ N : Int,
      (N < 30 → age_string N = intToStr N ++ str " days old (fresh!)")
      ∧ (30 ≤ N → N < 365 → age_string N = intToStr (Int.fdiv N 30) ++ str " months old")
      ∧ (365 ≤ N → age_string N = intToStr (Int.fdiv N 365) ++ str " years old"))
    ∧ age_string 400 = str "1 years old" := by
  refine ⟨fun N => ⟨fun h => ?_, fun h1 h2 => ?_, fun h => ?_⟩, rfl⟩
  · simp [age_string, h]
  · simp [age_string, h2, show ¬(N < 30) by omega]
  · simp [age_string, show ¬(N < 30) by omega, show ¬(N < 365) by omega]

/-- Witness for C6 at concrete gaps of 10, 40 and 400 days. -/
theorem C6_age_bucket_amended_witness :
    age_string 10 = intToStr 10 ++ str " days old (fresh!)"
    ∧ age_string 40 = intToStr (Int.fdiv 40 30) ++ str " months old"
    ∧ age_string 400 = intToStr (Int.fdiv 400 365) ++ str " years old" := by
  exact ⟨(C6_age_bucket_amended.1 10).1 (by norm_num),
    (C6_age_bucket_amended.1 40).2.1 (by norm_num) (by norm_num),
    (C6_age_bucket_amended.1 400).2.2 (by norm_num)⟩

/-- C8 counterexample — a present test-coverage value of 0 (no tests
detected) is substituted as the `Unknown` placeholder, not as 0: the
source uses Python `or`, and the integer 0 is falsy. -/
theorem C8_coverage_placeholder_counterexample :
    coverage_line (some 0) = str "- Test Coverage: Unknown\n"
    ∧ coverage_line (some 0) ≠ str "- Test Coverage: 0\n" := by
  constructor
  · rfl
  · decide

/-- C8 amended — the `Unknown` placeholder is substituted for the
test-coverage field when the field is absent *or* when it carries the
falsy present value 0; a positive value is rendered as its number. -/
theorem C8_coverage_placeholder_amended (tc : Option Nat) :
    test_coverage_field tc
      = if tc = none ∨ tc = some 0 then str "Unknown" else natToStr (tc.getD 0) := by
  rcases tc with _ | n
  · simp [test_coverage_field]
  · cases n with
    | zero => simp [test_coverage_field]
    | succ m => simp [test_coverage_field]

/-- C7 — the `--quick` branch of the CLI constructs the roaster without
`quick_mode=True`, so backend initialization still runs: with a `gpt`
model and no API key the quick command fails with the missing-key error,
and with the ollama package unavailable it fails with the import error —
even though `AIRoaster.__init__`'s own `quick_mode` flag would skip all
backend initialization as the spec describes. -/
theorem C7_quick_flag_backend_init (ol oi : Bool) (m : List Char)
    (k : Option (List Char)) :
    cli_quick_roaster_init (str "gpt-4") none ol oi = .error .openaiKeyMissing
    ∧ cli_quick_roaster_init (str "mistral") none false oi = .error .ollamaImportError
    ∧ airoaster_init m k true ol oi = .ok none := by
  refine ⟨?_, ?_, ?_⟩
  · rfl
  · rfl
  · simp [airoaster_init]

/-- Repository state for the C4 counterexample: `package.json` exists but
holds invalid JSON; `requirements.txt` exists with two requirement lines;
no other manifest exists. -/
def gc0 : List Char → Option (List Char) := fun f =>
  if f = str "package.json" then some (str "NOT-JSON")
  else if f = str "requirements.txt" then some (str "requests\nflask")
  else none

/-- Behaviour of `json.loads` over the contents present in `gc0`: the only
string ever passed to it is `NOT-JSON`, which is invalid JSON, so the call
raises. -/
def jl0 : List Char → Option PkgJson := fun _ => none

/-- UTF-8 decoding that succeeds on every content (all contents in `gc0`
are valid UTF-8). -/
def dec0 : List Char → Option (List Char) := some

/-- C4 counterexample — dependency detection does *not* stop at the first
manifest that exists: in a repository whose `package.json` exists but
fails to parse, the later-priority `requirements.txt` determines the
resulting record (type `pip`, count 2), because the `except: continue`
around the loop body also swallows parse errors. -/
theorem C4_first_found_manifest_counterexample :
    gc0 (str "package.json") ≠ none
    ∧ (get_dependencies jl0 dec0 gc0).type = some (str "pip")
    ∧ (get_dependencies jl0 dec0 gc0).count = 2
    ∧ (get_dependencies jl0 dec0 gc0).list = [str "requests", str "flask"] := by
  refine ⟨by decide, rfl, rfl, rfl⟩

lemma dep_step_skip {jl : List Char → Option PkgJson}
    {dec gc : List Char → Option (List Char)} {filename ty : List Char}
    {rest : List (List Char × List Char)} {deps : DepInfo}
    (h : gc filename = none) :
    dep_step jl dec gc ((filename, ty) :: rest) deps
      = dep_step jl dec gc rest deps := by
  simp [dep_step, h]

lemma dep_step_pkg {jl : List Char → Option PkgJson}
    {dec gc : List Char → Option (List Char)} {ty c : List Char} {d : PkgJson}
    {rest : List (List Char × List Char)} {deps : DepInfo}
    (h1 : gc (str "package.json") = some c) (h2 : jl c = some d) :
    dep_step jl dec gc ((str "package.json", ty) :: rest) deps
      = { deps with
          type := some ty,
          count := (mergedKeys d).length,
          list := mergedKeys d } := by
  simp [dep_step, h1, h2]

lemma dep_step_pkg_fail {jl : List Char → Option PkgJson}
    {dec gc : List Char → Option (List Char)} {ty c : List Char}
    {rest : List (List Char × List Char)} {deps : DepInfo}
    (h1 : gc (str "package.json") = some c) (h2 : jl c = none) :
    dep_step jl dec gc ((str "package.json", ty) :: rest) deps
      = dep_step jl dec gc rest { deps with type := some ty } := by
  simp [dep_step, h1, h2]

lemma dep_step_req {jl : List Char → Option PkgJson}
    {dec gc : List Char → Option (List Char)} {ty c t : List Char}
    {rest : List (List Char × List Char)} {deps : DepInfo}
    (h1 : gc (str "requirements.txt") = some c) (h2 : dec c = some t) :
    dep_step jl dec gc ((str "requirements.txt", ty) :: rest) deps
      = { deps with
          type := some ty,
          count := (req_list t).length,
          list := req_list t } := by
  have hne : str "requirements.txt" ≠ str "package.json" := by decide
  simp [dep_step, h1, h2, hne]

/-- C4 amended — the probe runs in the fixed priority order and stops at
the first manifest that is both found and successfully processed; a
manifest that exists but whose parsing raises is skipped (only its type
is recorded, to be overwritten by a later find).  When the top-priority
`package.json` exists and parses, it alone determines the record; when it
is absent (or present but unparsable), an existing and decodable
`requirements.txt` alone determines the record. -/
theorem C4_first_processed_manifest (jl : List Char → Option PkgJson)
    (dec gc : List Char → Option (List Char)) :
    (∀ c d, gc (str "package.json") = some c → jl c = some d →
      get_dependencies jl dec gc
        = ⟨(mergedKeys d).length, some (str "npm"), mergedKeys d⟩)
    ∧ (∀ c t, gc (str "package.json") = none →
      gc (str "requirements.txt") = some c → dec c = some t →
      get_dependencies jl dec gc
        = ⟨(req_list t).length, some (str "pip"), req_list t⟩)
    ∧ (∀ c c' t, gc (str "package.json") = some c → jl c = none →
      gc (str "requirements.txt") = some c' → dec c' = some t →
      get_dependencies jl dec gc
        = ⟨(req_list t).length, some (str "pip"), req_list t⟩) := by
  refine ⟨fun c d h1 h2 => ?_, fun c t h1 h2 h3 => ?_, fun c c' t h1 h2 h3 h4 => ?_⟩
  · simp only [get_dependencies, dep_files]
    rw [dep_step_pkg h1 h2]
  · simp only [get_dependencies, dep_files]
    rw [dep_step_skip h1, dep_step_req h2 h3]
  · simp only [get_dependencies, dep_files]
    rw [dep_step_pkg_fail h1 h2, dep_step_req h3 h4]


/-- Repository state for the C4 witness: a parsable `package.json`. -/
def gcA : List Char → Option (List Char) := fun f =>
  if f = str "package.json" then some (str "PKG") else none

/-- `json.loads` behaviour over `gcA`: the content `PKG` stands for a JSON
object with one runtime dependency and one dev dependency. -/
def jlA : List Char → Option PkgJson := fun c =>
  if c = str "PKG" then some ⟨[str "react"], [str "jest"]⟩ else none

/-- Repository state for the C4 witness, pip case: only `requirements.txt`
exists. -/
def gcB : List Char → Option (List Char) := fun f =>
  if f = str "requirements.txt" then some (str "numpy\n# comment\nscipy") else none

/-- Witness for C4 at concrete repository states: a parsable top-priority
`package.json` yields the npm record alone; with no `package.json`, a
decodable `requirements.txt` yields the pip record alone. -/
theorem C4_first_processed_manifest_witness :
    get_dependencies jlA dec0 gcA
      = ⟨(mergedKeys ⟨[str "react"], [str "jest"]⟩).length, some (str "npm"),
          mergedKeys ⟨[str "react"], [str "jest"]⟩⟩
    ∧ get_dependencies jlA dec0 gcB
      = ⟨(req_list (str "numpy\n# comment\nscipy")).length, some (str "pip"),
          req_list (str "numpy\n# comment\nscipy")⟩ := by
  exact ⟨(C4_first_processed_manifest jlA dec0 gcA).1 (str "PKG")
      ⟨[str "react"], [str "jest"]⟩ (by decide) (by decide),
    (C4_first_processed_manifest jlA dec0 gcB).2.1 (str "numpy\n# comment\nscipy")
      (str "numpy\n# comment\nscipy") (by decide) (by decide) (by decide)⟩

/-- Description document realizing C1's hypothesis: three occurrences of
`blazingly fast` and one of `zero dependencies`. -/
def demoDesc : List Char :=
  str "blazingly fast blazingly fast blazingly fast zero dependencies"

/-- Roast entry produced by rule 1 on `demoDesc`'s claims. -/
def demoPerfEntry : RoastEntry :=
  ⟨str "blazingly fast", str "No benchmarks found",
    str "\x22Trust me bro\x22 - The Benchmark"⟩

/-- Roast entry produced by rule 2 on `demoDesc`'s claims with 120
dependencies. -/
def demoDepEntry : RoastEntry :=
  ⟨str "zero dependencies", str "120 dependencies",
    str "\x27zero dependencies\x27 is a state of mind, not a dependency count"⟩

/-- C1 — for every analysis record whose claim list is the one extracted
from a description with three occurrences of `blazingly fast` and one of
`zero dependencies`, with no benchmarks and 120 dependencies, the quick
roast emits exactly the performance and lightweight mismatch entries
(both appearing in the output), scores 100 − 20 − 15 = 65 and delivers
the verdict `Marketing Spin`. -/
theorem C1_quick_roast_marketing_spin (d : RepoData)
    (h1 : d.readme_claims = extract_claims demoDesc)
    (h2 : d.has_benchmarks = false)
    (h3 : d.dependencies.count = 120) :
    (quick_roast d).roasts = [demoPerfEntry, demoDepEntry]
    ∧ containsSub (render_entry demoPerfEntry) (quick_roast d).output = true
    ∧ containsSub (render_entry demoDepEntry) (quick_roast d).output = true
    ∧ (quick_roast d).score = 65
    ∧ (quick_roast d).verdict = str "Marketing Spin" := by
  have hcl : d.readme_claims
      = [⟨str "performance", str "blazingly fast", 3⟩,
         ⟨str "performance", str "blazing", 3⟩,
         ⟨str "lightweight", str "zero dependencies", 1⟩] :=
    h1.trans (by decide)
  have hperf : perf_claims d
      = [⟨str "performance", str "blazingly fast", 3⟩,
         ⟨str "performance", str "blazing", 3⟩] := by
    simp only [perf_claims, hcl]; decide
  have hdep : dep_claims d = [⟨str "lightweight", str "zero dependencies", 1⟩] := by
    simp only [dep_claims, hcl]; decide
  have hprod : prod_claims d = [] := by
    simp only [prod_claims, hcl]; decide
  have hr1 : rule1_fires d = true := by
    simp [rule1_fires, hperf, h2]
  have hr2 : rule2_fires d = true := by
    simp [rule2_fires, hdep, h3]
  have hr3 : rule3_fires d = false := by
    simp [rule3_fires, hprod]
  have hE1 : perf_entry d = demoPerfEntry := by
    simp only [perf_entry, hperf]; decide
  have hE2 : dep_entry d = demoDepEntry := by
    simp only [dep_entry, hdep, h3]; decide
  have hroasts : quick_roasts d = [demoPerfEntry, demoDepEntry] := by
    simp [quick_roasts, hr1, hr2, hr3, hE1, hE2]
  have hscore : quick_score d = 65 := by
    simp [quick_score, hroasts, quick_score_pre, hr1, hr2, hr3]
  have hverdict : quick_verdict d = str "Marketing Spin" := by
    rw [quick_verdict, hscore]; decide
  have hbody : quick_body d
      = render_entry demoPerfEntry ++ (render_entry demoDepEntry ++ []) := by
    simp [quick_body, hroasts]
  have hout : (quick_roast d).output
      = quick_header d.full_name d.stars
        ++ (quick_body d ++ score_block (quick_score d) (quick_verdict d)) := rfl
  refine ⟨hroasts, ?_, ?_, hscore, hverdict⟩
  · rw [hout]
    apply containsSub_ext_left
    apply containsSub_ext_right
    rw [hbody]
    exact containsSub_self_append _ _
  · rw [hout]
    apply containsSub_ext_left
    apply containsSub_ext_right
    rw [hbody]
    exact containsSub_ext_left _ (containsSub_self_append _ _)

/-- Concrete analysis record witnessing C1. -/
def demoData : RepoData :=
  { name := str "hypetrain", full_name := str "acme/hypetrain",
    description := some demoDesc,
    stars := 1234, forks := 7, watchers := 7, open_issues := 5,
    language := some (str "Python"),
    created_at := 0, updated_at := 100, pushed_at := 100, size := 10,
    readme := some demoDesc,
    readme_claims := extract_claims demoDesc,
    dependencies := ⟨120, some (str "npm"), []⟩,
    has_tests := true, has_benchmarks := false, has_ci := false, has_docs := false,
    test_coverage := none,
    commit_frequency := ⟨3, 0, true⟩,
    issue_stats := ⟨5, 0, 5, 0⟩,
    license := none }

/-- Witness for C1 at the concrete record `demoData`. -/
theorem C1_quick_roast_marketing_spin_witness :
    (quick_roast demoData).roasts = [demoPerfEntry, demoDepEntry]
    ∧ containsSub (render_entry demoPerfEntry) (quick_roast demoData).output = true
    ∧ containsSub (render_entry demoDepEntry) (quick_roast demoData).output = true
    ∧ (quick_roast demoData).score = 65
    ∧ (quick_roast demoData).verdict = str "Marketing Spin" :=
  C1_quick_roast_marketing_spin demoData rfl rfl rfl

/-- C3 — whenever none of the three mismatch rules fires, the quick roast
produces no mismatch entry, forces the score to 95 (not the 100 baseline),
emits the all-clear line in the output, and the verdict is `Honest AF`. -/
theorem C3_no_mismatch_forces_95 (d : RepoData)
    (h1 : rule1_fires d = false) (h2 : rule2_fires d = false)
    (h3 : rule3_fires d = false) :
    (quick_roast d).roasts = []
    ∧ (quick_roast d).score = 95
    ∧ containsSub ALL_CLEAR (quick_roast d).output = true
    ∧ (quick_roast d).verdict = str "Honest AF" := by
  have hroasts : quick_roasts d = [] := by
    simp [quick_roasts, h1, h2, h3]
  have hscore : quick_score d = 95 := by
    simp [quick_score, hroasts]
  have hbody : quick_body d = ALL_CLEAR := by
    simp [quick_body, hroasts]
  have hout : (quick_roast d).output
      = quick_header d.full_name d.stars
        ++ (quick_body d ++ score_block (quick_score d) (quick_verdict d)) := rfl
  refine ⟨hroasts, hscore, ?_, ?_⟩
  · rw [hout, hbody]
    exact containsSub_ext_left _ (containsSub_self_append _ _)
  · show quick_verdict d = _
    rw [quick_verdict, hscore]; decide

/-- Concrete analysis record witnessing C3: no claims at all, so no rule
can fire. -/
def honestData : RepoData :=
  { name := str "plain", full_name := str "acme/plain",
    description := none,
    stars := 3, forks := 0, watchers := 0, open_issues := 0,
    language := none,
    created_at := 0, updated_at := 1, pushed_at := 1, size := 1,
    readme := none,
    readme_claims := [],
    dependencies := ⟨0, none, []⟩,
    has_tests := false, has_benchmarks := false, has_ci := false, has_docs := false,
    test_coverage := some 0,
    commit_frequency := ⟨0, 0, false⟩,
    issue_stats := ⟨0, 0, 0, 0⟩,
    license := none }

/-- Witness for C3 at the concrete record `honestData`. -/
theorem C3_no_mismatch_forces_95_witness :
    (quick_roast honestData).roasts = []
    ∧ (quick_roast honestData).score = 95
    ∧ containsSub ALL_CLEAR (quick_roast honestData).output = true
    ∧ (quick_roast honestData).verdict = str "Honest AF" :=
  C3_no_mismatch_forces_95 honestData rfl rfl rfl

/-- C10 — the quick-roast score never drops below 40 (the three deductions
sum to at most 60, and the zero-mismatch path forces 95), so the offline
path never outputs the verdict `README Fiction`, which needs a score
below 30. -/
theorem C10_score_lower_bound (d : RepoData) :
    40 ≤ (quick_roast d).score
    ∧ (quick_roast d).verdict ≠ str "README Fiction" := by
  show 40 ≤ quick_score d ∧ quick_verdict d ≠ str "README Fiction"
  cases hb1 : rule1_fires d <;> cases hb2 : rule2_fires d <;>
    cases hb3 : rule3_fires d <;>
    simp [quick_verdict, quick_score, quick_roasts, quick_score_pre,
      hb1, hb2, hb3] <;> decide
